import Mathlib

/-!
Verification of the arrival-prediction component of the Ebus tracking
service.  The definitions below are a shallow embedding of
`server/models/Prediction.js` and `server/routes/prediction.js`: the
JavaScript numbers are modelled as rationals, timestamps as rational
millisecond counts, and the mongoose record as a Lean structure.
-/

namespace Ebus

/-- Enumeration `factors.trafficConditions` of the `Prediction.js` schema. -/
inductive TrafficConditions
  | low | medium | high
deriving DecidableEq, Repr

/-- Enumeration `factors.weatherConditions` of the `Prediction.js` schema. -/
inductive WeatherConditions
  | clear | rainy | snowy | foggy
deriving DecidableEq, Repr

/-- Enumeration `factors.timeOfDay` of the `Prediction.js` schema. -/
inductive TimeOfDay
  | morning | afternoon | evening | night
deriving DecidableEq, Repr

/-- Enumeration `status` of a prediction record (`Prediction.js` schema). -/
inductive PredStatus
  | pending | in_transit | arrived | cancelled
deriving DecidableEq, Repr

/-- The factor snapshot entering the arithmetic.  `currentSpeed` is an
`Option` because the HTTP request body may omit it, in which case the
JavaScript comparison `factors.currentSpeed > 0` is false. -/
structure Factors where
  trafficConditions : TrafficConditions
  weatherConditions : WeatherConditions
  timeOfDay : TimeOfDay
  currentSpeed : Option ℚ
  distanceToStop : ℚ
deriving DecidableEq, Repr

/-- Traffic step, identical in `routes/prediction.js` lines 43-44 and
`Prediction.js` lines 176-177:
`if high, t *= 1.5; else if low, t *= 0.8`. -/
def trafficAdjust (tc : TrafficConditions) (t : ℚ) : ℚ :=
  match tc with
  | .high => t * (3 / 2)
  | .low => t * (4 / 5)
  | .medium => t

/-- Weather step, identical in `routes/prediction.js` lines 46-48 and
`Prediction.js` lines 180-182: `if rainy or snowy, t *= 1.3`. -/
def weatherAdjust (wc : WeatherConditions) (t : ℚ) : ℚ :=
  match wc with
  | .rainy | .snowy => t * (13 / 10)
  | .clear | .foggy => t

/-- Time-of-day step, present only in `Prediction.js` lines 185-187:
`if morning or evening, t *= 1.2`. -/
def timeOfDayAdjust (tod : TimeOfDay) (t : ℚ) : ℚ :=
  match tod with
  | .morning | .evening => t * (6 / 5)
  | .afternoon | .night => t

/-- Speed step, identical in `routes/prediction.js` lines 50-53 and
`Prediction.js` lines 190-193: `if currentSpeed > 0, t *= 30 / currentSpeed`.
A missing speed compares as not greater than zero in JavaScript. -/
def speedAdjust (sp : Option ℚ) (t : ℚ) : ℚ :=
  match sp with
  | some s => if 0 < s then t * (30 / s) else t
  | none => t

/-- Travel time computed inline by the `POST /api/prediction/generate`
handler (`routes/prediction.js` lines 39-53): base 30 minutes, then the
traffic, weather and speed steps.  This handler applies no time-of-day
step. -/
def generateTravelTime (f : Factors) : ℚ :=
  speedAdjust f.currentSpeed
    (weatherAdjust f.weatherConditions
      (trafficAdjust f.trafficConditions 30))

/-- Predicted arrival timestamp produced by the generate handler:
`new Date(now.getTime() + baseTime * 60 * 1000)`. -/
def generateArrival (now : ℚ) (f : Factors) : ℚ :=
  now + generateTravelTime f * 60 * 1000

/-- Travel time computed by the `updatePrediction` method
(`Prediction.js` lines 168-201): base `averageTravelTime || 30`, then
the traffic, weather, time-of-day and speed steps in order. -/
def updatePredictionTravelTime (averageTravelTime : ℚ) (f : Factors) : ℚ :=
  let baseTime := if averageTravelTime = 0 then 30 else averageTravelTime
  speedAdjust f.currentSpeed
    (timeOfDayAdjust f.timeOfDay
      (weatherAdjust f.weatherConditions
        (trafficAdjust f.trafficConditions baseTime)))

/-- Predicted arrival timestamp produced by `updatePrediction`. -/
def updatePredictionArrival (now averageTravelTime : ℚ) (f : Factors) : ℚ :=
  now + updatePredictionTravelTime averageTravelTime f * 60 * 1000

/-- Generate-handler travel time with the speed step omitted, for
comparison with the guarded computation (spec: zero speed means "no
adjustment applied"). -/
def generateTravelTimeNoSpeedStep (f : Factors) : ℚ :=
  weatherAdjust f.weatherConditions (trafficAdjust f.trafficConditions 30)

/-- Model travel time with the speed step omitted, for comparison with
the guarded computation. -/
def updatePredictionTravelTimeNoSpeedStep (averageTravelTime : ℚ) (f : Factors) : ℚ :=
  let baseTime := if averageTravelTime = 0 then 30 else averageTravelTime
  timeOfDayAdjust f.timeOfDay
    (weatherAdjust f.weatherConditions
      (trafficAdjust f.trafficConditions baseTime))

/-- Accuracy computation `calculateAccuracy` (`Prediction.js` lines
153-165) on the two timestamps:
`difference = |predicted - actual| / (1000 * 60)` minutes,
`accuracy = max(0, 100 - difference * 2)`, then `Math.round`.
`Math.round x` is `⌊x + 1/2⌋`, which is Mathlib's `round`. -/
def calculateAccuracy (predicted actual : ℚ) : ℤ :=
  let difference := |predicted - actual| / (1000 * 60)
  let accuracy := max 0 (100 - difference * 2)
  round accuracy

/-- The persisted prediction record, restricted to the fields the
prediction component reads or writes. -/
structure PredictionRecord where
  stopId : ℤ
  routeId : ℤ
  predictedArrivalTime : ℚ
  actualArrivalTime : Option ℚ
  predictionAccuracy : Option ℤ
  historicalAverageTravelTime : ℚ
  factors : Factors
  status : PredStatus
deriving DecidableEq, Repr

/-- The `calculateAccuracy` method as a record transformer: it returns
without writing when `actualArrivalTime` is unset and otherwise stores
the rounded accuracy in `predictionAccuracy`. -/
def applyCalculateAccuracy (r : PredictionRecord) : PredictionRecord :=
  match r.actualArrivalTime with
  | none => r
  | some actual =>
      { r with
        predictionAccuracy := some (calculateAccuracy r.predictedArrivalTime actual) }

/-- The record created by the generate handler (`Prediction.create`):
fresh prediction with no actual arrival, no accuracy, and the schema
default status `pending`; `factors.timeOfDay` is overwritten with the
wall-clock bucket `getTimeOfDay()`, supplied here as `timeOfDayNow`. -/
def generateRecord (now : ℚ) (stopId routeId : ℤ) (f : Factors)
    (timeOfDayNow : TimeOfDay) : PredictionRecord :=
  { stopId := stopId
    routeId := routeId
    predictedArrivalTime := generateArrival now f
    actualArrivalTime := none
    predictionAccuracy := none
    historicalAverageTravelTime := 0
    factors := { f with timeOfDay := timeOfDayNow }
    status := .pending }

/-- The mutation performed by the `PUT /api/prediction/:id/update`
handler on an existing record (`routes/prediction.js` lines 133-136):
set `actualArrivalTime`, set status to `arrived`, run
`calculateAccuracy`, save. -/
def reportActualRecord (r : PredictionRecord) (actualArrivalTime : ℚ) :
    PredictionRecord :=
  applyCalculateAccuracy
    { r with actualArrivalTime := some actualArrivalTime, status := .arrived }

/-- Outcome of the `PUT /api/prediction/:id/update` handler. -/
inductive UpdateResult
  | notFound
  | ok (record : PredictionRecord)
deriving DecidableEq, Repr

/-- The `PUT /api/prediction/:id/update` handler: 404 when `findById`
yields nothing, otherwise the mutation above. -/
def updateRoute (found : Option PredictionRecord) (actualArrivalTime : ℚ) :
    UpdateResult :=
  match found with
  | none => .notFound
  | some p => .ok (reportActualRecord p actualArrivalTime)

/-- The `updatePrediction` method as a record transformer: store the
merged factors, recompute `predictedArrivalTime` from the historical
average and the merged factors; the status is not touched. -/
def updatePredictionRecord (r : PredictionRecord) (newFactors : Factors)
    (now : ℚ) : PredictionRecord :=
  { r with
    factors := newFactors
    predictedArrivalTime := updatePredictionArrival now r.historicalAverageTravelTime newFactors }

/-- Request-body fields checked by the validator chain of
`POST /api/prediction/generate` (`routes/prediction.js` lines 13-21). -/
def generateValidatedFields : List String :=
  ["busId", "routeId", "stopId", "currentLocation.coordinates",
   "factors.trafficConditions", "factors.weatherConditions",
   "factors.distanceToStop"]

/-- Filter of the `getPredictionsForStop` query (`Prediction.js` lines
204-215): matching stop and route, status in `{pending, in_transit}`,
`predictedArrivalTime ≥ now`. -/
def matchesStopQuery (stopId routeId : ℤ) (now : ℚ) (r : PredictionRecord) : Bool :=
  decide (r.stopId = stopId) && decide (r.routeId = routeId) &&
  (decide (r.status = .pending) || decide (r.status = .in_transit)) &&
  decide (now ≤ r.predictedArrivalTime)

/-- Sort order of the `getPredictionsForStop` query: ascending
`predictedArrivalTime`. -/
def byArrival (a b : PredictionRecord) : Prop :=
  a.predictedArrivalTime ≤ b.predictedArrivalTime

instance : DecidableRel byArrival :=
  fun a b => inferInstanceAs (Decidable (a.predictedArrivalTime ≤ b.predictedArrivalTime))

instance : IsTotal PredictionRecord byArrival :=
  ⟨fun a b => le_total a.predictedArrivalTime b.predictedArrivalTime⟩

instance : IsTrans PredictionRecord byArrival :=
  ⟨fun _ _ _ hab hbc => le_trans hab hbc⟩

/-- The `getPredictionsForStop` static (`Prediction.js` lines 204-215):
filter by stop, route, live status and future arrival; sort ascending by
`predictedArrivalTime`; `limit(10)`. -/
def getPredictionsForStop (db : List PredictionRecord) (stopId routeId : ℤ)
    (now : ℚ) : List PredictionRecord :=
  (List.insertionSort byArrival (db.filter (matchesStopQuery stopId routeId now))).take 10

/-- Records reachable through the prediction component's own operations:
creation by the generate handler, the actual-arrival report, and
`updatePrediction`. -/
inductive ReachablePrediction : PredictionRecord → Prop
  | generated (now : ℚ) (stopId routeId : ℤ) (f : Factors) (tod : TimeOfDay) :
      ReachablePrediction (generateRecord now stopId routeId f tod)
  | reported (r : PredictionRecord) (a : ℚ) :
      ReachablePrediction r → ReachablePrediction (reportActualRecord r a)
  | updated (r : PredictionRecord) (nf : Factors) (now : ℚ) :
      ReachablePrediction r → ReachablePrediction (updatePredictionRecord r nf now)

/-- Concrete live factor snapshot used to instantiate universally
quantified theorems. -/
def sampleFactors : Factors :=
  ⟨.medium, .clear, .afternoon, some 30, 0⟩

/-- Concrete factor snapshot with speed zero. -/
def zeroSpeedFactors : Factors :=
  ⟨.medium, .clear, .afternoon, some 0, 0⟩

/-- Concrete stored record used to instantiate query theorems. -/
def sampleStored : PredictionRecord :=
  ⟨1, 2, 1000, none, none, 0, sampleFactors, .pending⟩

lemma trafficAdjust_pos (tc : TrafficConditions) {t : ℚ} (ht : 0 < t) :
    0 < trafficAdjust tc t := by
  cases tc <;> simp only [trafficAdjust] <;> linarith

lemma weatherAdjust_pos (wc : WeatherConditions) {t : ℚ} (ht : 0 < t) :
    0 < weatherAdjust wc t := by
  cases wc <;> simp only [weatherAdjust] <;> linarith

lemma timeOfDayAdjust_pos (tod : TimeOfDay) {t : ℚ} (ht : 0 < t) :
    0 < timeOfDayAdjust tod t := by
  cases tod <;> simp only [timeOfDayAdjust] <;> linarith

lemma speedAdjust_pos (sp : Option ℚ) {t : ℚ} (ht : 0 < t) :
    0 < speedAdjust sp t := by
  cases sp with
  | none => exact ht
  | some s =>
      simp only [speedAdjust]
      split_ifs with hs
      · exact mul_pos ht (div_pos (by norm_num) hs)
      · exact ht

lemma weatherAdjust_lt (wc : WeatherConditions) {t₁ t₂ : ℚ} (h : t₁ < t₂) :
    weatherAdjust wc t₁ < weatherAdjust wc t₂ := by
  cases wc <;> simp only [weatherAdjust] <;> linarith

lemma timeOfDayAdjust_lt (tod : TimeOfDay) {t₁ t₂ : ℚ} (h : t₁ < t₂) :
    timeOfDayAdjust tod t₁ < timeOfDayAdjust tod t₂ := by
  cases tod <;> simp only [timeOfDayAdjust] <;> linarith

lemma speedAdjust_lt (sp : Option ℚ) {t₁ t₂ : ℚ} (h : t₁ < t₂) :
    speedAdjust sp t₁ < speedAdjust sp t₂ := by
  cases sp with
  | none => exact h
  | some s =>
      simp only [speedAdjust]
      split_ifs with hs
      · exact mul_lt_mul_of_pos_right h (div_pos (by norm_num) hs)
      · exact h

lemma speedAdjust_some_nonpos {s : ℚ} (hs : s ≤ 0) (t : ℚ) :
    speedAdjust (some s) t = t := by
  simp only [speedAdjust, if_neg (not_lt.2 hs)]

lemma baseTime_pos {avg : ℚ} (havg : 0 ≤ avg) :
    0 < (if avg = 0 then (30 : ℚ) else avg) := by
  split_ifs with h
  · norm_num
  · exact lt_of_le_of_ne havg (Ne.symm h)

lemma round_nonneg_of_nonneg {x : ℚ} (hx : 0 ≤ x) : 0 ≤ round x := by
  rw [round_eq]
  exact Int.le_floor.2 (by push_cast; linarith)

lemma round_le_int {x : ℚ} {z : ℤ} (h : x ≤ z) : round x ≤ z := by
  rw [round_eq]
  calc ⌊x + 1 / 2⌋ ≤ ⌊(z : ℚ) + 1 / 2⌋ := Int.floor_le_floor (by linarith)
    _ = z + ⌊(1 / 2 : ℚ)⌋ := Int.floor_int_add z (1 / 2)
    _ = z := by norm_num

/-- C1: on the spec's concrete scenario (traffic high, weather rainy,
time of day morning, speed 15, default base 30) the generate handler
computes a travel time of 117 minutes — it never applies the
time-of-day ×1.2 step — so its predicted arrival is now + 117 minutes,
not the claimed now + 140.4 minutes; the model's own `updatePrediction`
method does apply the step and yields 140.4 = 702/5 minutes. -/
theorem generate_omits_time_of_day_step :
    generateTravelTime ⟨.high, .rainy, .morning, some 15, 0⟩ = 117 ∧
    (∀ now : ℚ,
      generateArrival now ⟨.high, .rainy, .morning, some 15, 0⟩ =
        now + 117 * 60 * 1000) ∧
    updatePredictionTravelTime 0 ⟨.high, .rainy, .morning, some 15, 0⟩ = 702 / 5 ∧
    (117 : ℚ) ≠ 702 / 5 := by
  refine ⟨?_, fun now => ?_, ?_, by norm_num⟩ <;>
    norm_num [generateTravelTime, generateArrival, updatePredictionTravelTime,
      trafficAdjust, weatherAdjust, timeOfDayAdjust, speedAdjust]

/-- C2: `calculateAccuracy` returns the rounding of
`max 0 (100 - 2 * minutes-of-difference)`; the result is an integer in
[0,100], equal timestamps give 100, a 25-minute difference gives 50, and
any difference of at least 50 minutes gives exactly 0. -/
theorem calculateAccuracy_formula_bounds (p a : ℚ) :
    calculateAccuracy p a = round (max 0 (100 - 2 * (|p - a| / 60000))) ∧
    0 ≤ calculateAccuracy p a ∧ calculateAccuracy p a ≤ 100 ∧
    (p = a → calculateAccuracy p a = 100) ∧
    (|p - a| = 25 * 60000 → calculateAccuracy p a = 50) ∧
    (50 * 60000 ≤ |p - a| → calculateAccuracy p a = 0) := by
  have habs : 0 ≤ |p - a| := abs_nonneg _
  have harg : 100 - |p - a| / (1000 * 60) * 2 ≤ (100 : ℚ) := by linarith
  refine ⟨?_, ?_, ?_, ?_, ?_, ?_⟩
  · simp only [calculateAccuracy]
    congr 2
    ring
  · exact round_nonneg_of_nonneg (le_max_left _ _)
  · exact round_le_int (by push_cast; exact max_le (by norm_num) harg)
  · intro h
    subst h
    norm_num [calculateAccuracy]
  · intro h
    simp only [calculateAccuracy]
    rw [h]
    norm_num
  · intro h
    simp only [calculateAccuracy]
    have hle : 100 - |p - a| / (1000 * 60) * 2 ≤ (0 : ℚ) := by linarith
    rw [max_eq_left hle, round_zero]

/-- Closed instance of `calculateAccuracy_formula_bounds` at concrete
timestamps. -/
theorem calculateAccuracy_formula_bounds_witness :
    calculateAccuracy 0 0 = 100 ∧ calculateAccuracy 0 (25 * 60000) = 50 ∧
    calculateAccuracy 0 (50 * 60000) = 0 :=
  ⟨(calculateAccuracy_formula_bounds 0 0).2.2.2.1 rfl,
   (calculateAccuracy_formula_bounds 0 (25 * 60000)).2.2.2.2.1 (by norm_num),
   (calculateAccuracy_formula_bounds 0 (50 * 60000)).2.2.2.2.2 (by norm_num)⟩

/-- C3: with traffic medium, weather clear, afternoon, speed 30, every
adjustment step is the identity and `updatePrediction` predicts
now + baseTime minutes for every positive base. -/
theorem neutral_factors_arrival (b now d : ℚ) (hb : 0 < b) :
    trafficAdjust .medium b = b ∧ weatherAdjust .clear b = b ∧
    timeOfDayAdjust .afternoon b = b ∧ speedAdjust (some 30) b = b ∧
    updatePredictionArrival now b ⟨.medium, .clear, .afternoon, some 30, d⟩ =
      now + b * 60 * 1000 := by
  have hb0 : ¬b = 0 := ne_of_gt hb
  refine ⟨?_, ?_, ?_, ?_, ?_⟩ <;>
    norm_num [trafficAdjust, weatherAdjust, timeOfDayAdjust, speedAdjust,
      updatePredictionArrival, updatePredictionTravelTime, hb0]

/-- Closed instance of `neutral_factors_arrival` at base 42. -/
theorem neutral_factors_arrival_witness :
    trafficAdjust .medium 42 = 42 ∧ weatherAdjust .clear 42 = 42 ∧
    timeOfDayAdjust .afternoon 42 = 42 ∧ speedAdjust (some 30) 42 = 42 ∧
    updatePredictionArrival 0 42 ⟨.medium, .clear, .afternoon, some 30, 0⟩ =
      0 + 42 * 60 * 1000 :=
  neutral_factors_arrival 42 0 0 (by norm_num)

/-- C4: for any factor snapshot with nonnegative speed and nonnegative
historical average, both computed travel times are strictly positive, so
both predicted arrivals are strictly later than the computation time. -/
theorem travel_time_positive_arrival_future (avg now : ℚ) (f : Factors)
    (havg : 0 ≤ avg) (hsp : ∀ s, f.currentSpeed = some s → 0 ≤ s) :
    0 < generateTravelTime f ∧ 0 < updatePredictionTravelTime avg f ∧
    now < generateArrival now f ∧ now < updatePredictionArrival now avg f := by
  have h1 : 0 < generateTravelTime f :=
    speedAdjust_pos _ (weatherAdjust_pos _ (trafficAdjust_pos _ (by norm_num)))
  have h2 : 0 < updatePredictionTravelTime avg f := by
    unfold updatePredictionTravelTime
    exact speedAdjust_pos _ (timeOfDayAdjust_pos _
      (weatherAdjust_pos _ (trafficAdjust_pos _ (baseTime_pos havg))))
  have h1' : 0 < generateTravelTime f * 60 * 1000 := by positivity
  have h2' : 0 < updatePredictionTravelTime avg f * 60 * 1000 := by positivity
  refine ⟨h1, h2, ?_, ?_⟩
  · unfold generateArrival
    linarith
  · unfold updatePredictionArrival
    linarith

/-- Closed instance of `travel_time_positive_arrival_future`. -/
theorem travel_time_positive_arrival_future_witness :
    0 < generateTravelTime sampleFactors ∧
    0 < updatePredictionTravelTime 10 sampleFactors ∧
    (0 : ℚ) < generateArrival 0 sampleFactors ∧
    (0 : ℚ) < updatePredictionArrival 0 10 sampleFactors := by
  refine travel_time_positive_arrival_future 10 0 sampleFactors (by norm_num) ?_
  intro s hs
  simp only [sampleFactors, Option.some.injEq] at hs
  rw [← hs]
  norm_num

/-- C5: with `currentSpeed = 0` the guard skips the speed branch, so no
division is reached and both computations equal the computation with the
speed step omitted. -/
theorem speed_zero_skips_adjustment (avg : ℚ) (f : Factors)
    (h : f.currentSpeed = some 0) :
    generateTravelTime f = generateTravelTimeNoSpeedStep f ∧
    updatePredictionTravelTime avg f = updatePredictionTravelTimeNoSpeedStep avg f := by
  unfold generateTravelTime generateTravelTimeNoSpeedStep
    updatePredictionTravelTime updatePredictionTravelTimeNoSpeedStep
  rw [h, speedAdjust_some_nonpos le_rfl, speedAdjust_some_nonpos le_rfl]
  exact ⟨rfl, rfl⟩

/-- Closed instance of `speed_zero_skips_adjustment`. -/
theorem speed_zero_skips_adjustment_witness :
    generateTravelTime zeroSpeedFactors = generateTravelTimeNoSpeedStep zeroSpeedFactors ∧
    updatePredictionTravelTime 0 zeroSpeedFactors =
      updatePredictionTravelTimeNoSpeedStep 0 zeroSpeedFactors :=
  speed_zero_skips_adjustment 0 zeroSpeedFactors rfl

/-- C6: all else fixed, high traffic predicts a strictly later arrival
than low traffic, in the generate handler and in `updatePrediction`. -/
theorem traffic_high_strictly_later (avg now : ℚ) (f : Factors)
    (havg : 0 ≤ avg) :
    generateArrival now { f with trafficConditions := .low } <
      generateArrival now { f with trafficConditions := .high } ∧
    updatePredictionArrival now avg { f with trafficConditions := .low } <
      updatePredictionArrival now avg { f with trafficConditions := .high } := by
  have key : ∀ b : ℚ, 0 < b → trafficAdjust .low b < trafficAdjust .high b := by
    intro b hb
    simp only [trafficAdjust]
    linarith
  have hg : generateTravelTime { f with trafficConditions := .low } <
      generateTravelTime { f with trafficConditions := .high } := by
    unfold generateTravelTime
    exact speedAdjust_lt _ (weatherAdjust_lt _ (key 30 (by norm_num)))
  have hu : updatePredictionTravelTime avg { f with trafficConditions := .low } <
      updatePredictionTravelTime avg { f with trafficConditions := .high } := by
    unfold updatePredictionTravelTime
    exact speedAdjust_lt _ (timeOfDayAdjust_lt _ (weatherAdjust_lt _
      (key _ (baseTime_pos havg))))
  constructor
  · unfold generateArrival
    linarith
  · unfold updatePredictionArrival
    linarith

/-- Closed instance of `traffic_high_strictly_later`. -/
theorem traffic_high_strictly_later_witness :
    generateArrival 0 { sampleFactors with trafficConditions := .low } <
      generateArrival 0 { sampleFactors with trafficConditions := .high } ∧
    updatePredictionArrival 0 0 { sampleFactors with trafficConditions := .low } <
      updatePredictionArrival 0 0 { sampleFactors with trafficConditions := .high } :=
  traffic_high_strictly_later 0 0 sampleFactors le_rfl

/-- C7: the update route answers NotFound when the record does not
exist; otherwise it stores the actual arrival time, sets status to
`arrived`, stores the accuracy against the unchanged predicted time, and
a second call with a different actual time overwrites both the stored
actual time and the stored accuracy. -/
theorem update_route_spec (p : PredictionRecord) (a₁ a₂ : ℚ) :
    updateRoute none a₁ = .notFound ∧
    updateRoute (some p) a₁ = .ok (reportActualRecord p a₁) ∧
    (reportActualRecord p a₁).actualArrivalTime = some a₁ ∧
    (reportActualRecord p a₁).status = .arrived ∧
    (reportActualRecord p a₁).predictionAccuracy =
      some (calculateAccuracy p.predictedArrivalTime a₁) ∧
    (reportActualRecord p a₁).predictedArrivalTime = p.predictedArrivalTime ∧
    (reportActualRecord (reportActualRecord p a₁) a₂).actualArrivalTime = some a₂ ∧
    (reportActualRecord (reportActualRecord p a₁) a₂).predictionAccuracy =
      some (calculateAccuracy p.predictedArrivalTime a₂) := by
  refine ⟨rfl, rfl, ?_, ?_, ?_, ?_, ?_, ?_⟩ <;>
    simp [reportActualRecord, applyCalculateAccuracy]

/-- C8: every record reachable through the component's operations from a
freshly generated record has status `pending` or `arrived`; in
particular no operation ever produces status `cancelled`. -/
theorem status_never_cancelled (r : PredictionRecord)
    (h : ReachablePrediction r) :
    (r.status = .pending ∨ r.status = .arrived) ∧ r.status ≠ .cancelled := by
  induction h with
  | generated now stopId routeId f tod =>
      simp [generateRecord]
  | reported r a _ _ =>
      simp [reportActualRecord, applyCalculateAccuracy]
  | updated r nf now _ ih =>
      simpa [updatePredictionRecord] using ih

/-- Closed instance of `status_never_cancelled` at a freshly generated
record. -/
theorem status_never_cancelled_witness :
    ((generateRecord 0 1 2 sampleFactors .afternoon).status = .pending ∨
      (generateRecord 0 1 2 sampleFactors .afternoon).status = .arrived) ∧
    (generateRecord 0 1 2 sampleFactors .afternoon).status ≠ .cancelled :=
  status_never_cancelled _ (.generated 0 1 2 sampleFactors .afternoon)

/-- C9: the stop query returns only stored records for the requested
stop and route whose status is `pending` or `in_transit` and whose
predicted arrival is not earlier than the query time, sorted in
ascending order of predicted arrival, and returns at most 10 records. -/
theorem get_predictions_for_stop_spec (db : List PredictionRecord)
    (stopId routeId : ℤ) (now : ℚ) :
    (∀ r ∈ getPredictionsForStop db stopId routeId now,
        r ∈ db ∧ r.stopId = stopId ∧ r.routeId = routeId ∧
        (r.status = .pending ∨ r.status = .in_transit) ∧
        now ≤ r.predictedArrivalTime) ∧
    List.Sorted byArrival (getPredictionsForStop db stopId routeId now) ∧
    (getPredictionsForStop db stopId routeId now).length ≤ 10 := by
  refine ⟨?_, ?_, ?_⟩
  · intro r hr
    unfold getPredictionsForStop at hr
    have h1 := List.take_subset _ _ hr
    have h2 := (List.perm_insertionSort byArrival _).mem_iff.mp h1
    rw [List.mem_filter] at h2
    obtain ⟨hdb, hq⟩ := h2
    simp only [matchesStopQuery, Bool.and_eq_true, Bool.or_eq_true,
      decide_eq_true_eq] at hq
    exact ⟨hdb, hq.1.1.1, hq.1.1.2, hq.1.2, hq.2⟩
  · unfold getPredictionsForStop
    exact List.Pairwise.sublist (List.take_sublist _ _)
      (List.sorted_insertionSort byArrival _)
  · unfold getPredictionsForStop
    rw [List.length_take]
    exact min_le_left _ _

/-- Closed instance of `get_predictions_for_stop_spec` on a one-record
store. -/
theorem get_predictions_for_stop_spec_witness :
    sampleStored ∈ [sampleStored] ∧ sampleStored.stopId = 1 ∧
    sampleStored.routeId = 2 ∧
    (sampleStored.status = .pending ∨ sampleStored.status = .in_transit) ∧
    (0 : ℚ) ≤ sampleStored.predictedArrivalTime := by
  refine (get_predictions_for_stop_spec [sampleStored] 1 2 0).1 sampleStored ?_
  norm_num [getPredictionsForStop, matchesStopQuery, sampleStored, sampleFactors,
    List.insertionSort, List.orderedInsert]

/-- C10: the generate endpoint's validator chain never mentions
`factors.currentSpeed`, and every non-positive or absent speed is
silently treated exactly like speed 0: the speed step is skipped. -/
theorem current_speed_unvalidated_and_skipped :
    "factors.currentSpeed" ∉ generateValidatedFields ∧
    (∀ (f : Factors) (s : ℚ), s ≤ 0 →
        generateTravelTime { f with currentSpeed := some s } =
          generateTravelTime { f with currentSpeed := some 0 }) ∧
    (∀ f : Factors,
        generateTravelTime { f with currentSpeed := none } =
          generateTravelTime { f with currentSpeed := some 0 }) := by
  refine ⟨by simp [generateValidatedFields], ?_, ?_⟩
  · intro f s hs
    unfold generateTravelTime
    rw [show ({ f with currentSpeed := some s } : Factors).currentSpeed = some s from rfl,
      show ({ f with currentSpeed := some 0 } : Factors).currentSpeed = some 0 from rfl,
      speedAdjust_some_nonpos hs, speedAdjust_some_nonpos le_rfl]
  · intro f
    unfold generateTravelTime
    rw [show ({ f with currentSpeed := none } : Factors).currentSpeed = none from rfl,
      show ({ f with currentSpeed := some 0 } : Factors).currentSpeed = some 0 from rfl,
      speedAdjust_some_nonpos le_rfl]
    rfl

/-- Closed instance of `current_speed_unvalidated_and_skipped` at
speed -5. -/
theorem current_speed_unvalidated_and_skipped_witness :
    "factors.currentSpeed" ∉ generateValidatedFields ∧
    generateTravelTime { sampleFactors with currentSpeed := some (-5) } =
      generateTravelTime { sampleFactors with currentSpeed := some 0 } :=
  ⟨current_speed_unvalidated_and_skipped.1,
   current_speed_unvalidated_and_skipped.2.1 sampleFactors (-5) (by norm_num)⟩

end Ebus
